import Mathlib

/-!
Verification of the Redundancy Health and Reconstruction Status model of the
COSMEON distributed-storage frontend.

The definitions below are a shallow embedding of the TypeScript source:
JavaScript values that may be absent become Option, JavaScript falsy-or
defaulting (where 0, the empty string, undefined and null are falsy) becomes
explicit jsOr helpers, asynchronous external calls become explicit
Except-valued inputs, and the observable side effects of each event handler
(marker writes, API calls, alert dialogs) are recorded as a trace of actions.
-/

/-- JavaScript defaulting for numbers: `x || d`, where 0 (and undefined) are
falsy.  Numeric fields are embedded as Int. -/
def jsOrInt (x : Option Int) (d : Int) : Int :=
  match x with
  | some v => if v = 0 then d else v
  | none => d

/-- JavaScript defaulting for strings: `x || d`, where the empty string
(and undefined) are falsy. -/
def jsOrStr (x : Option String) (d : String) : String :=
  match x with
  | some s => if s = "" then d else s
  | none => d

/-- JavaScript `a || b` on two optional strings (the empty string is falsy). -/
def jsOrStrOpt (a b : Option String) : Option String :=
  match a with
  | some s => if s = "" then b else some s
  | none => b

/-! ## File list: records returned by GET /files and the frontend
health badge heuristic (FileList.getHealthStatus). -/

/-- Per-shard entry of a file record as returned by GET /files
(fields other than presence are not inspected by the health badge). -/
structure FileShard where
  bucket : String
  filename : String
  size : Int
  shard_index : Int
  deriving Repr, DecidableEq

/-- Algorithm configuration object attached to a file record; for
Reed-Solomon it may carry the data-shard count k. -/
structure AlgoConfig where
  k : Option Int
  m : Option Int
  deriving Repr, DecidableEq

/-- A loosely-typed file record as consumed by the FileList page: every
field the source reads defensively is optional here. -/
structure FileRec where
  id : String
  filename : Option String
  algorithm : Option String
  algorithm_used : Option String
  config : Option AlgoConfig
  algorithm_config : Option AlgoConfig
  shards : Option (List FileShard)
  deriving Repr, DecidableEq

/-- The health badge computed by the FileList page (label and colour; the
icon component is presentational and not modelled). -/
structure HealthBadge where
  label : String
  color : String
  deriving Repr, DecidableEq

/-- JavaScript `a || b || {}` for the config object (any object is truthy). -/
def resolveConfig (a b : Option AlgoConfig) : AlgoConfig :=
  match a with
  | some c => c
  | none => match b with
    | some c => c
    | none => { k := none, m := none }

/-- Shallow embedding of FileList.getHealthStatus: the frontend health
badge heuristic over a raw file record.  It inspects only the presence and
number of recorded shards, never the node states. -/
def getHealthStatus (file : FileRec) : HealthBadge :=
  let hasShards : Bool := match file.shards with
    | some l => decide (l.length > 0)
    | none => false
  let algorithm := jsOrStrOpt file.algorithm file.algorithm_used
  if ¬hasShards then
    { label := "Unknown", color := "slate" }
  else if algorithm = some "reed-solomon" then
    let config := resolveConfig file.config file.algorithm_config
    let k := jsOrInt config.k 3
    let totalShards : Int := (file.shards.getD []).length
    let minNeeded := k
    if totalShards ≥ minNeeded then
      { label := "Healthy", color := "emerald" }
    else
      { label := "Degraded", color := "amber" }
  else if algorithm = some "replication" then
    { label := "Healthy", color := "emerald" }
  else
    { label := "Healthy", color := "emerald" }

/-! ## Node registry records and the cluster summary
(types/node.ts, NodeSummary). -/

/-- A node status record as returned by GET /nodes/status; optional fields
follow types/node.ts. -/
structure NodeStatus where
  node_id : Option String
  status : Option String
  files_count : Option Int
  capacity_gb : Option Int
  capacity_bytes : Option Int
  used_bytes : Option Int
  utilization_percent : Option Int
  available_bytes : Option Int
  last_checked : Option String
  simulated_failure : Option Bool
  capacity : Option String
  deriving Repr, DecidableEq

/-- The cluster health summary computed by the NodeSummary component. -/
structure ClusterSummary where
  total : Nat
  online : Nat
  offline : Nat
  healthLabel : String
  healthColor : String
  healthValue : Nat
  deriving Repr, DecidableEq

/-- Shallow embedding of the NodeSummary component body: node counts and
the fixed step function over the number of offline nodes. -/
def NodeSummary (nodes : List NodeStatus) : ClusterSummary :=
  let total := nodes.length
  let online := (nodes.filter (fun n => n.status = some "online")).length
  let offline := total - online
  let h0 : String × String × Nat := ("Excellent", "green", 100)
  let h1 := if offline = 1 then ("Warning", "yellow", 75) else h0
  let h2 := if offline ≥ 2 then ("Critical", "red", 35) else h1
  { total := total, online := online, offline := offline,
    healthLabel := h2.1, healthColor := h2.2.1, healthValue := h2.2.2 }

/-! ## NodeCard: defaulted node data and display values. -/

/-- Result of `parseInt(s.replace(/\D/g, ''))`: keep the digits, then parse;
an empty digit string parses to NaN, embedded as none. -/
def parseDigits (s : String) : Option Int :=
  match (String.mk (s.toList.filter Char.isDigit)).toNat? with
  | some n => some (n : Int)
  | none => none

/-- The fully defaulted node record built at the top of NodeCard. -/
structure NodeData where
  node_id : String
  status : String
  files_count : Int
  capacity_gb : Int
  capacity_bytes : Int
  used_bytes : Int
  utilization_percent : Int
  available_bytes : Int
  simulated_failure : Bool
  deriving Repr, DecidableEq

/-- Shallow embedding of the `nodeData` defaulting block of NodeCard
(last_checked, which defaults to the current time, is presentational and
not modelled). -/
def nodeData (node : NodeStatus) : NodeData :=
  { node_id := jsOrStr node.node_id "Unknown Node"
    status := jsOrStr node.status "offline"
    files_count := jsOrInt node.files_count 0
    capacity_gb := jsOrInt node.capacity_gb
      (match node.capacity with
        | some s => if s = "" then 50 else jsOrInt (parseDigits s) 50
        | none => 50)
    capacity_bytes := jsOrInt node.capacity_bytes
      (match node.capacity_gb with
        | some g => if g = 0 then 50 * 1024 * 1024 * 1024
                    else g * 1024 * 1024 * 1024
        | none => 50 * 1024 * 1024 * 1024)
    used_bytes := jsOrInt node.used_bytes 0
    utilization_percent := jsOrInt node.utilization_percent 0
    available_bytes := jsOrInt node.available_bytes
      (match node.capacity_bytes with
        | some c => if c = 0 then 50 * 1024 * 1024 * 1024
                    else c - jsOrInt node.used_bytes 0
        | none => 50 * 1024 * 1024 * 1024)
    simulated_failure := (node.simulated_failure).getD false }

/-- NodeCard: `isOnline = nodeData.status === "online"`. -/
def isOnline (nd : NodeData) : Bool := nd.status = "online"

/-- NodeCard displayed utilization: clamped when online, forced to 0 when
offline. -/
def displayUtilization (nd : NodeData) : Int :=
  if isOnline nd then max 0 (min 100 nd.utilization_percent) else 0

/-- NodeCard displayed used bytes: forced to 0 when offline. -/
def displayUsed (nd : NodeData) : Int :=
  if isOnline nd then nd.used_bytes else 0

/-- NodeCard displayed file count: forced to 0 when offline. -/
def displayFiles (nd : NodeData) : Int :=
  if isOnline nd then nd.files_count else 0

/-- NodeCard displayed available space (the inline expression of the
Available row): full capacity when offline. -/
def displayAvailable (nd : NodeData) : Int :=
  if isOnline nd then nd.available_bytes else nd.capacity_bytes

/-! ## Observable actions of the event handlers.

Each asynchronous handler is embedded as a function from the results of its
external calls (given as Except values) to the trace of observable actions
it performs and the state it leaves behind. -/

/-- An observable action of an event handler: writing or clearing the
per-entity in-flight marker, issuing an API call, or showing a dialog. -/
inductive UiAction where
  | markerSet (entityId : String)
  | markerClear (entityId : String)
  | apiCall (endpoint : String) (entityId : String)
  | alertShown
  deriving Repr, DecidableEq

/-! ### NodeCard.handleToggleFailure -/

/-- The command issued against the node registry by a toggle. -/
inductive NodeCommand where
  | simulateFailure (nodeId : String)
  | restore (nodeId : String)
  deriving Repr, DecidableEq

/-- Shallow embedding of one full execution of NodeCard.handleToggleFailure
for the card of nodeId.  isToggling is that card's in-flight marker when
the handler is entered; apiResult is the outcome of the awaited API call.
Returns the trace of actions, the command issued (none when the guard
rejects), and the marker when the handler returns. -/
def handleToggleFailure (nodeId : String) (isToggling : Bool)
    (isSimulatedFailure : Bool) (apiResult : Except String Unit) :
    List UiAction × Option NodeCommand × Bool :=
  if isToggling then
    -- `if (isToggling) return;` — nothing happens, marker untouched
    ([], none, isToggling)
  else
    let cmd := if isSimulatedFailure then NodeCommand.restore nodeId
               else NodeCommand.simulateFailure nodeId
    let endpoint := if isSimulatedFailure then "restoreNode"
                    else "simulateNodeFailure"
    match apiResult with
    | .ok _ =>
        ([UiAction.markerSet nodeId, UiAction.apiCall endpoint nodeId,
          UiAction.markerClear nodeId], some cmd, false)
    | .error _ =>
        -- catch: alert; finally: setIsToggling(false)
        ([UiAction.markerSet nodeId, UiAction.apiCall endpoint nodeId,
          UiAction.alertShown, UiAction.markerClear nodeId], some cmd, false)

/-- The per-node in-flight toggle markers of the dashboard, one isToggling
flag per NodeCard: the list of node ids whose card is currently toggling. -/
def toggleInFlight (inflight : List String) (nodeId : String) : Bool :=
  inflight.contains nodeId

/-- The synchronous prefix of handleToggleFailure on the card of nodeId:
the guard check followed by setIsToggling(true) and the API command.
Returns the new in-flight set and the command issued, none when the guard
rejects the request. -/
def startToggle (inflight : List String) (nodeId : String)
    (isSimulatedFailure : Bool) : List String × Option NodeCommand :=
  if inflight.contains nodeId then
    (inflight, none)
  else
    (nodeId :: inflight,
     some (if isSimulatedFailure then NodeCommand.restore nodeId
           else NodeCommand.simulateFailure nodeId))

/-! ### FileList.handleDeleteFile and FileList.handleReconstructFile -/

/-- The slice of FileList component state touched by the delete handler. -/
structure FilesState where
  files : List FileRec
  selectedFileId : Option String
  deleting : Option String
  deleteError : Option String
  deriving Repr, DecidableEq

/-- Shallow embedding of one full execution of FileList.handleDeleteFile:
confirmAns is the answer to the confirm dialog and deleteResult the outcome
of the awaited DELETE call.  Returns the action trace and the final state.
Note that the success branch never clears the deleting marker (there is no
finally block in the source). -/
def handleDeleteFile (st : FilesState) (fileId : String) (confirmAns : Bool)
    (deleteResult : Except String Unit) : List UiAction × FilesState :=
  if ¬confirmAns then
    ([], st)
  else
    let st1 : FilesState := { st with deleting := some fileId, deleteError := none }
    match deleteResult with
    | .ok _ =>
        ([UiAction.markerSet fileId, UiAction.apiCall "deleteFile" fileId],
         { st1 with files := st1.files.filter (fun f => f.id ≠ fileId),
                    selectedFileId := none })
    | .error msg =>
        ([UiAction.markerSet fileId, UiAction.apiCall "deleteFile" fileId,
          UiAction.markerClear fileId],
         { st1 with deleteError := some msg, deleting := none })

/-- The reconstruction feasibility descriptor returned by
GET /file/{id}/reconstruct-info. -/
structure ReconstructInfo where
  filename : String
  algorithm : String
  total_shards : Int
  available_shards : Int
  needed_shards : Int
  missing_shards : List Int
  original_size : Int
  can_reconstruct : Bool
  deriving Repr, DecidableEq

/-- Terminal outcome of one reconstruction attempt. -/
inductive ReconstructOutcome where
  | saved
  | blocked
  | cancelled
  | failed
  deriving Repr, DecidableEq

/-- Result of one full execution of the reconstruction handler: its action
trace, its terminal outcome, the reconstructing marker and the error text
when the handler returns. -/
structure ReconstructRun where
  trace : List UiAction
  outcome : ReconstructOutcome
  reconstructing : Option String
  reconstructError : Option String
  deriving Repr, DecidableEq

/-- Shallow embedding of one full execution of
FileList.handleReconstructFile: infoResult is the outcome of the awaited
getReconstructInfo call, confirmAns the answer to the confirm dialog
(consulted only when can_reconstruct is true, by && short-circuit), and
downloadResult the outcome of the awaited reconstructFile download.  The
finally block clears the reconstructing marker on every path. -/
def handleReconstructFile (fileId : String)
    (infoResult : Except String ReconstructInfo) (confirmAns : Bool)
    (downloadResult : Except String Unit) : ReconstructRun :=
  match infoResult with
  | .error msg =>
      { trace := [UiAction.markerSet fileId, UiAction.markerClear fileId]
        outcome := .failed, reconstructing := none
        reconstructError := some msg }
  | .ok info =>
      if info.can_reconstruct ∧ confirmAns then
        match downloadResult with
        | .ok _ =>
            { trace := [UiAction.markerSet fileId,
                        UiAction.apiCall "getReconstructInfo" fileId,
                        UiAction.apiCall "reconstructFile" fileId,
                        UiAction.alertShown, UiAction.markerClear fileId]
              outcome := .saved, reconstructing := none
              reconstructError := none }
        | .error msg =>
            { trace := [UiAction.markerSet fileId,
                        UiAction.apiCall "getReconstructInfo" fileId,
                        UiAction.apiCall "reconstructFile" fileId,
                        UiAction.markerClear fileId]
              outcome := .failed, reconstructing := none
              reconstructError := some msg }
      else if ¬info.can_reconstruct then
        { trace := [UiAction.markerSet fileId,
                    UiAction.apiCall "getReconstructInfo" fileId,
                    UiAction.alertShown, UiAction.markerClear fileId]
          outcome := .blocked, reconstructing := none
          reconstructError := none }
      else
        -- can_reconstruct true but the operator declined the dialog
        { trace := [UiAction.markerSet fileId,
                    UiAction.apiCall "getReconstructInfo" fileId,
                    UiAction.markerClear fileId]
          outcome := .cancelled, reconstructing := none
          reconstructError := none }

/-! ## Dashboard.loadData: the periodic poll with two parallel fetches. -/

/-- The response of GET /nodes/status. -/
structure NodesStatusResponse where
  total_nodes : Int
  online_nodes : Int
  nodes : List NodeStatus
  deriving Repr, DecidableEq

/-- The slice of Dashboard state written by loadData. -/
structure DashboardState where
  data : Option NodesStatusResponse
  files : List FileRec
  error : Option String
  loading : Bool
  deriving Repr, DecidableEq

/-- Shallow embedding of Dashboard.loadData: the two fetches run in
parallel under Promise.all; each carries its own catch returning a
documented default (an empty snapshot with zero nodes, or an empty file
list), so a failure of one never aborts the other. -/
def loadData (nodeFetch : Except String NodesStatusResponse)
    (filesFetch : Except String (List FileRec)) : DashboardState :=
  let nodeRes := match nodeFetch with
    | .ok r => r
    | .error _ => { total_nodes := 0, online_nodes := 0, nodes := [] }
  let filesRes := match filesFetch with
    | .ok l => l
    | .error _ => []
  { data := some nodeRes, files := filesRes, error := none, loading := false }

/-! ## The Health Evaluator.

The authoritative per-file health computation is served by the Python
backend behind GET /file/{id}/status; this repository holds only its
response shape (types/file.ts FileStatusResponse) and its caller
(api/cosmeon.ts fetchFileStatus).  The evaluator itself is therefore
modelled from the spec. -/

/-- Modelled from the spec: the EncodingScheme tagged variant of the data
model; the backend code carrying it (main.py) is not part of this
repository. -/
inductive EncodingScheme where
  | replication (factor : Nat)
  | reedSolomon (k : Nat) (m : Nat)
  | xorParity (data : Nat) (parity : Nat)
  deriving Repr, DecidableEq

/-- Modelled from the spec: a shard reference of the data model. -/
structure ShardRef where
  index : Nat
  nodeId : String
  sizeBytes : Nat
  deriving Repr, DecidableEq

/-- Modelled from the spec: a file record of the data model. -/
structure FileRecord where
  id : String
  filename : String
  originalSizeBytes : Nat
  scheme : EncodingScheme
  shards : List ShardRef
  deriving Repr, DecidableEq

/-- Modelled from the spec: the node-registry snapshot the evaluator reads,
reduced to the ids of the nodes whose state is Online; a shard whose node
id is not listed (unknown or missing reference) counts as offline. -/
structure NodeRegistrySnapshot where
  onlineIds : List String
  deriving Repr, DecidableEq

/-- Modelled from the spec: the qualitative health classification. -/
inductive Health where
  | healthy
  | degraded
  | critical
  | unknown
  deriving Repr, DecidableEq

/-- Modelled from the spec: the derived per-file health status. -/
structure FileHealthStatus where
  onlineShards : Nat
  neededShards : Nat
  canSurviveMore : Nat
  reconstructable : Bool
  health : Health
  deriving Repr, DecidableEq

/-- Modelled from the spec: the quorum size of a scheme (step 2 of the
evaluation algorithm). -/
def neededOf : EncodingScheme → Nat
  | .replication _ => 1
  | .reedSolomon k _ => k
  | .xorParity d _ => d

/-- Modelled from the spec: the number of shards whose referenced node is
online (step 1 of the evaluation algorithm). -/
def onlineShardCount (file : FileRecord) (snap : NodeRegistrySnapshot) : Nat :=
  (file.shards.filter (fun s => snap.onlineIds.contains s.nodeId)).length

/-- Modelled from the spec: Evaluate(file, nodes) -> FileHealthStatus, the
pure Health Evaluator served by GET /file/{id}/status, whose backend code
(main.py) is missing from this repository.  Classification follows the
spec's listing: a file with no shards is unknown; otherwise healthy when
every shard is online (equivalently onlineShards = totalShards, which for
a replication scheme is the all-shards-online condition), degraded when
reconstructable but not all online, critical when not reconstructable. -/
def evaluate (file : FileRecord) (snap : NodeRegistrySnapshot) :
    FileHealthStatus :=
  let total := file.shards.length
  let online := onlineShardCount file snap
  let needed := neededOf file.scheme
  let recon : Bool := needed ≤ online
  let survive : Nat := online - needed
  let health : Health :=
    if file.shards.isEmpty then .unknown
    else if online = total then .healthy
    else if recon then .degraded
    else .critical
  { onlineShards := online, neededShards := needed, canSurviveMore := survive,
    reconstructable := recon, health := health }

/-! ## Concrete inputs used in the examples and witnesses. -/

/-- A ReedSolomon k=4 m=2 file with six shards on nodes 1..6. -/
def rs42File : FileRecord :=
  { id := "file-rs", filename := "archive.bin", originalSizeBytes := 4096,
    scheme := .reedSolomon 4 2,
    shards := [⟨0, "node-1", 700⟩, ⟨1, "node-2", 700⟩, ⟨2, "node-3", 700⟩,
               ⟨3, "node-4", 700⟩, ⟨4, "node-5", 700⟩, ⟨5, "node-6", 700⟩] }

/-- Snapshot with all six shard nodes online. -/
def snapSixOnline : NodeRegistrySnapshot :=
  ⟨["node-1", "node-2", "node-3", "node-4", "node-5", "node-6"]⟩

/-- Snapshot with four of the six shard nodes online. -/
def snapFourOnline : NodeRegistrySnapshot :=
  ⟨["node-1", "node-2", "node-3", "node-4"]⟩

/-- Snapshot with three of the six shard nodes online. -/
def snapThreeOnline : NodeRegistrySnapshot :=
  ⟨["node-1", "node-2", "node-3"]⟩

/-- A Replication factor=3 file with three shards on nodes 1..3. -/
def replFile : FileRecord :=
  { id := "file-rep", filename := "log.txt", originalSizeBytes := 100,
    scheme := .replication 3,
    shards := [⟨0, "node-1", 100⟩, ⟨1, "node-2", 100⟩, ⟨2, "node-3", 100⟩] }

/-- Snapshot with exactly one of the three shard nodes online. -/
def snapOneOnline : NodeRegistrySnapshot := ⟨["node-1"]⟩

/-- Snapshot with no node online. -/
def snapZeroOnline : NodeRegistrySnapshot := ⟨[]⟩

/-- A Reed-Solomon file record with three shards and no configuration
object at all (no explicit k). -/
def rsNoConfigFile : FileRec :=
  { id := "f1", filename := some "a.bin", algorithm := some "reed-solomon",
    algorithm_used := none, config := none, algorithm_config := none,
    shards := some [⟨"node-1", "s0.cosm", 100, 0⟩, ⟨"node-2", "s1.cosm", 100, 1⟩,
                    ⟨"node-3", "s2.cosm", 100, 2⟩] }

/-- A file record with no shards field at all. -/
def noShardsFile : FileRec :=
  { id := "f2", filename := some "b.bin", algorithm := some "replication",
    algorithm_used := none, config := none, algorithm_config := none,
    shards := none }

/-- An online node record. -/
def onlineNodeEx : NodeStatus :=
  { node_id := some "node-1", status := some "online", files_count := some 3,
    capacity_gb := some 50, capacity_bytes := some 1000,
    used_bytes := some 100, utilization_percent := some 10,
    available_bytes := some 900, last_checked := some "2024-01-15T10:30:00Z",
    simulated_failure := some false, capacity := none }

/-- An offline node record with nonzero usage recorded in the snapshot. -/
def offlineNodeEx : NodeStatus :=
  { node_id := some "node-2", status := some "offline", files_count := some 7,
    capacity_gb := some 50, capacity_bytes := some 1000,
    used_bytes := some 400, utilization_percent := some 40,
    available_bytes := some 600, last_checked := some "2024-01-15T10:30:00Z",
    simulated_failure := some true, capacity := none }

/-- The FileList state used in the delete examples. -/
def deleteDemoState : FilesState :=
  { files := [rsNoConfigFile, noShardsFile], selectedFileId := some "f1",
    deleting := none, deleteError := none }

/-- A reconstruction info response that reports the file as not
reconstructable (three of six shards available, four needed). -/
def blockedInfoEx : ReconstructInfo :=
  { filename := "archive.bin", algorithm := "reed-solomon", total_shards := 6,
    available_shards := 3, needed_shards := 4, missing_shards := [3, 4, 5],
    original_size := 4096, can_reconstruct := false }

/-! ## Theorems -/

/-- C3: the cluster health summary satisfies offlineNodes = totalNodes -
onlineNodes, and its classification is the fixed step function of
offlineNodes: 0 offline yields Excellent with score 100, exactly 1 offline
Warning with score 75, and 2 or more offline Critical with score 35, for
every list of node states. -/
theorem C3_cluster_summary_step_function (nodes : List NodeStatus) :
    (NodeSummary nodes).offline =
      (NodeSummary nodes).total - (NodeSummary nodes).online ∧
    ((NodeSummary nodes).offline = 0 →
      (NodeSummary nodes).healthLabel = "Excellent" ∧
      (NodeSummary nodes).healthValue = 100) ∧
    ((NodeSummary nodes).offline = 1 →
      (NodeSummary nodes).healthLabel = "Warning" ∧
      (NodeSummary nodes).healthValue = 75) ∧
    (2 ≤ (NodeSummary nodes).offline →
      (NodeSummary nodes).healthLabel = "Critical" ∧
      (NodeSummary nodes).healthValue = 35) := by
  refine ⟨rfl, ?_, ?_, ?_⟩ <;>
    · intro h
      simp only [NodeSummary] at h ⊢
      split_ifs <;> simp_all

/-- C3 witness: with one online and one offline node the summary has one
offline node and classifies as Warning with score 75. -/
theorem C3_cluster_summary_step_function_witness :
    (NodeSummary [onlineNodeEx, offlineNodeEx]).offline =
      (NodeSummary [onlineNodeEx, offlineNodeEx]).total -
        (NodeSummary [onlineNodeEx, offlineNodeEx]).online ∧
    (NodeSummary [onlineNodeEx, offlineNodeEx]).healthLabel = "Warning" ∧
    (NodeSummary [onlineNodeEx, offlineNodeEx]).healthValue = 75 :=
  ⟨(C3_cluster_summary_step_function [onlineNodeEx, offlineNodeEx]).1,
   (C3_cluster_summary_step_function [onlineNodeEx, offlineNodeEx]).2.2.1
     (by decide)⟩

/-- C4: a file record with no shards recorded (either no shards field or an
empty shard list) is classified Unknown by the FileList health badge,
regardless of its declared algorithm. -/
theorem C4_no_shards_unknown (file : FileRec)
    (h : file.shards = none ∨ file.shards = some []) :
    getHealthStatus file = { label := "Unknown", color := "slate" } := by
  rcases h with h | h <;> simp [getHealthStatus, h]

/-- C4 witness: a concrete record without a shards field is Unknown. -/
theorem C4_no_shards_unknown_witness :
    (noShardsFile.shards = none ∨ noShardsFile.shards = some []) ∧
    getHealthStatus noShardsFile = { label := "Unknown", color := "slate" } :=
  ⟨Or.inl rfl, C4_no_shards_unknown noShardsFile (Or.inl rfl)⟩

/-- C5 counterexample: a Reed-Solomon file with three recorded shards and
no configuration at all is labelled Healthy by getHealthStatus (through the
guessed default k = 3), not Unknown as the claim states. -/
theorem C5_counterexample_default_k_used :
    (getHealthStatus rsNoConfigFile).label = "Healthy" ∧
    (getHealthStatus rsNoConfigFile).label ≠ "Unknown" := by
  decide

/-- C5 amended: for every Reed-Solomon file with at least one recorded
shard whose resolved configuration supplies no explicit k, the FileList
health derivation substitutes the guessed default k = 3 (labelling the
file Healthy when at least three shards are recorded and Degraded
otherwise); it does not report Unknown. -/
theorem C5_amended_missing_k_defaults_to_three (file : FileRec)
    (l : List FileShard) (hsh : file.shards = some l) (hne : l ≠ [])
    (halg : jsOrStrOpt file.algorithm file.algorithm_used =
      some "reed-solomon")
    (hk : (resolveConfig file.config file.algorithm_config).k = none) :
    getHealthStatus file =
      (if (l.length : Int) ≥ 3 then
        ({ label := "Healthy", color := "emerald" } : HealthBadge)
       else { label := "Degraded", color := "amber" }) ∧
    getHealthStatus file ≠ { label := "Unknown", color := "slate" } := by
  have hlen : 0 < l.length := List.length_pos.mpr hne
  constructor
  · simp [getHealthStatus, hsh, halg, hk, hlen, jsOrInt]
  · simp [getHealthStatus, hsh, halg, hk, hlen, jsOrInt]
    split_ifs <;> simp

/-- C5 amended witness: the three-shard no-config file is Healthy. -/
theorem C5_amended_missing_k_defaults_to_three_witness :
    getHealthStatus rsNoConfigFile =
      (if ((3 : Nat) : Int) ≥ 3 then
        ({ label := "Healthy", color := "emerald" } : HealthBadge)
       else { label := "Degraded", color := "amber" }) ∧
    getHealthStatus rsNoConfigFile ≠ { label := "Unknown", color := "slate" } :=
  C5_amended_missing_k_defaults_to_three rsNoConfigFile _ rfl (by decide)
    (by decide) (by decide)

/-- C9: in the dashboard poll, a failure of either of the two parallel
fetches does not block the other: the failed node fetch degrades to the
zero-node snapshot while the fetched file list is applied, and the failed
files fetch degrades to the empty list while the fetched node snapshot is
applied. -/
theorem C9_partial_fetch_degrades_to_defaults (e1 e2 : String)
    (nr : NodesStatusResponse) (fs : List FileRec) :
    loadData (.error e1) (.ok fs) =
      { data := some { total_nodes := 0, online_nodes := 0, nodes := [] },
        files := fs, error := none, loading := false } ∧
    loadData (.ok nr) (.error e2) =
      { data := some nr, files := [], error := none, loading := false } :=
  ⟨rfl, rfl⟩

/-- C10: for every node whose status is not online, the rendered per-node
metrics are forced to zero regardless of the snapshot values: displayed
used bytes 0, displayed file count 0, displayed utilization 0, and
displayed available space equal to the node's full capacity. -/
theorem C10_offline_node_metrics_forced_to_zero (node : NodeStatus)
    (h : node.status ≠ some "online") :
    displayUsed (nodeData node) = 0 ∧
    displayFiles (nodeData node) = 0 ∧
    displayUtilization (nodeData node) = 0 ∧
    displayAvailable (nodeData node) = (nodeData node).capacity_bytes := by
  have hst : isOnline (nodeData node) = false := by
    simp only [isOnline, nodeData, decide_eq_false_iff_not]
    cases hs : node.status with
    | none => simp [jsOrStr]
    | some s =>
      by_cases he : s = ""
      · simp [jsOrStr, he]
      · simp only [jsOrStr, he, if_false]
        intro hcon
        exact h (by rw [hs, hcon])
  simp [displayUsed, displayFiles, displayUtilization, displayAvailable, hst]

/-- C10 witness: the offline example node displays zeroed metrics and full
capacity as available. -/
theorem C10_offline_node_metrics_forced_to_zero_witness :
    displayUsed (nodeData offlineNodeEx) = 0 ∧
    displayFiles (nodeData offlineNodeEx) = 0 ∧
    displayUtilization (nodeData offlineNodeEx) = 0 ∧
    displayAvailable (nodeData offlineNodeEx) =
      (nodeData offlineNodeEx).capacity_bytes :=
  C10_offline_node_metrics_forced_to_zero offlineNodeEx (by decide)

/-- C6: in every execution of the reconstruction workflow, if the fetched
reconstruction info reports can_reconstruct = false (the backend sets this
when availableShards < neededShards), the workflow ends in the Blocked
outcome and the binary-download call reconstructFile is never issued,
whatever the dialog answer or the would-be download result. -/
theorem C6_blocked_never_downloads (fileId : String) (info : ReconstructInfo)
    (confirmAns : Bool) (downloadResult : Except String Unit)
    (h : info.can_reconstruct = false) :
    (handleReconstructFile fileId (.ok info) confirmAns
        downloadResult).outcome = .blocked ∧
    UiAction.apiCall "reconstructFile" fileId ∉
      (handleReconstructFile fileId (.ok info) confirmAns
        downloadResult).trace := by
  simp [handleReconstructFile, h]

/-- C6 witness: with the concrete blocked info (3 of 6 shards available,
4 needed) the run is Blocked and never calls the download endpoint. -/
theorem C6_blocked_never_downloads_witness :
    (handleReconstructFile "file-rs" (.ok blockedInfoEx) true
        (.ok ())).outcome = .blocked ∧
    UiAction.apiCall "reconstructFile" "file-rs" ∉
      (handleReconstructFile "file-rs" (.ok blockedInfoEx) true
        (.ok ())).trace :=
  C6_blocked_never_downloads "file-rs" blockedInfoEx true (.ok ()) (by decide)

/-- C7: at most one node toggle is in flight per node id.  Starting from a
state where neither node n nor node m is toggling: the first toggle on n is
issued; a second toggle request on n while the first is in flight is
rejected, returning without issuing a command and leaving the state
unchanged; and a toggle on the distinct node m while n is in flight still
proceeds. -/
theorem C7_toggle_serialized_per_node (s : List String) (n m : String)
    (b1 b2 b3 : Bool)
    (hn : toggleInFlight s n = false)
    (hm : toggleInFlight s m = false)
    (hnm : n ≠ m) :
    (startToggle s n b1).2.isSome = true ∧
    startToggle (startToggle s n b1).1 n b2 = ((startToggle s n b1).1, none) ∧
    (startToggle (startToggle s n b1).1 m b3).2.isSome = true := by
  have hn' : n ∉ s := by simpa [toggleInFlight] using hn
  have hm' : m ∉ s := by simpa [toggleInFlight] using hm
  refine ⟨?_, ?_, ?_⟩ <;>
    simp [startToggle, hn', hm', Ne.symm hnm]

/-- C7 witness: from the empty in-flight state, toggling node-1 proceeds,
a second toggle on node-1 is rejected, and a toggle on node-2 proceeds. -/
theorem C7_toggle_serialized_per_node_witness :
    (startToggle [] "node-1" false).2.isSome = true ∧
    startToggle (startToggle [] "node-1" false).1 "node-1" false =
      ((startToggle [] "node-1" false).1, none) ∧
    (startToggle (startToggle [] "node-1" false).1 "node-2" true).2.isSome
      = true :=
  C7_toggle_serialized_per_node [] "node-1" "node-2" false false true
    (by decide) (by decide) (by decide)

/-- C8 counterexample: a successful delete of file f1 (dialog confirmed,
DELETE call succeeds) leaves the deleting marker set to f1 and performs no
marker-clearing action, so the in-flight marker is not cleared
unconditionally on completion: the success path of the delete handler
violates the claim. -/
theorem C8_counterexample_delete_success_leaks_marker :
    (handleDeleteFile deleteDemoState "f1" true (.ok ())).2.deleting
      = some "f1" ∧
    UiAction.markerClear "f1" ∉
      (handleDeleteFile deleteDemoState "f1" true (.ok ())).1 := by
  decide

/-- C8 amended: for node toggle and file reconstruct the in-flight marker
keyed by the entity id is set before the operation starts and cleared
unconditionally when the operation completes, on both the success and the
failure path; for file delete the marker is set before the operation
starts and cleared on the failure path, but on the success path the file
record is removed and the marker is left set. -/
theorem C8_amended_marker_lifecycle (nodeId : String) (sim : Bool)
    (apiResult : Except String Unit) (fileId : String)
    (infoResult : Except String ReconstructInfo) (confirmAns : Bool)
    (downloadResult : Except String Unit) (st : FilesState) (fid : String)
    (delResult : Except String Unit) :
    ((handleToggleFailure nodeId false sim apiResult).1.head?
        = some (.markerSet nodeId) ∧
     (handleToggleFailure nodeId false sim apiResult).2.2 = false ∧
     UiAction.markerClear nodeId ∈
       (handleToggleFailure nodeId false sim apiResult).1) ∧
    ((handleReconstructFile fileId infoResult confirmAns
        downloadResult).trace.head? = some (.markerSet fileId) ∧
     (handleReconstructFile fileId infoResult confirmAns
        downloadResult).reconstructing = none) ∧
    ((handleDeleteFile st fid true delResult).1.head?
        = some (.markerSet fid) ∧
     (∀ msg, delResult = .error msg →
        (handleDeleteFile st fid true delResult).2.deleting = none) ∧
     (delResult = .ok () →
        (handleDeleteFile st fid true delResult).2.deleting = some fid)) := by
  refine ⟨?_, ?_, ?_⟩
  · cases apiResult <;> simp [handleToggleFailure]
  · cases infoResult with
    | error msg => simp [handleReconstructFile]
    | ok info =>
      by_cases hc : info.can_reconstruct = true ∧ confirmAns = true
      · cases downloadResult <;>
          simp [handleReconstructFile, hc.1, hc.2]
      · by_cases hr : info.can_reconstruct = true
        · have hcf : confirmAns = false := by
            cases confirmAns <;> simp_all
          simp [handleReconstructFile, hr, hcf]
        · have hrf : info.can_reconstruct = false := by
            cases h : info.can_reconstruct <;> simp_all
          simp [handleReconstructFile, hrf]
  · refine ⟨?_, ?_, ?_⟩
    · cases delResult <;> simp [handleDeleteFile]
    · intro msg hmsg
      subst hmsg
      simp [handleDeleteFile]
    · intro hok
      subst hok
      simp [handleDeleteFile]

/-- C8 amended witness: concrete runs showing the toggle marker cleared
after a successful toggle, the reconstruct marker cleared after a failed
info fetch, the delete marker cleared after a failed delete, and the
delete marker left set after a successful delete. -/
theorem C8_amended_marker_lifecycle_witness :
    (handleToggleFailure "node-1" false false (.ok ())).2.2 = false ∧
    (handleReconstructFile "f1" (.error "boom") true
        (.ok ())).reconstructing = none ∧
    (handleDeleteFile deleteDemoState "f1" true
        (.error "boom")).2.deleting = none ∧
    (handleDeleteFile deleteDemoState "f1" true (.ok ())).2.deleting
        = some "f1" :=
  ⟨(C8_amended_marker_lifecycle "node-1" false (.ok ()) "f1"
      (.error "boom") true (.ok ()) deleteDemoState "f1"
      (.error "boom")).1.2.1,
   (C8_amended_marker_lifecycle "node-1" false (.ok ()) "f1"
      (.error "boom") true (.ok ()) deleteDemoState "f1"
      (.error "boom")).2.1.2,
   (C8_amended_marker_lifecycle "node-1" false (.ok ()) "f1"
      (.error "boom") true (.ok ()) deleteDemoState "f1"
      (.error "boom")).2.2.2.1 "boom" rfl,
   (C8_amended_marker_lifecycle "node-1" false (.ok ()) "f1"
      (.error "boom") true (.ok ()) deleteDemoState "f1"
      (.ok ())).2.2.2.2 rfl⟩

/-- C1: for every file under a ReedSolomon (or XorParity) scheme carrying
its declared shard count (totalShards = k + m) with at least one shard
recorded, the evaluated health is Healthy iff onlineShards = totalShards,
Degraded iff reconstructable and onlineShards < totalShards, and Critical
iff not reconstructable; in particular for ReedSolomon k=4 m=2 with six
shards, six online gives Healthy, four online gives Degraded, and three
online gives Critical. -/
theorem C1_erasure_health_classification (file : FileRecord)
    (snap : NodeRegistrySnapshot) (k m : Nat)
    (hscheme : file.scheme = .reedSolomon k m ∨ file.scheme = .xorParity k m)
    (hinv : file.shards.length = k + m)
    (hne : file.shards ≠ []) :
    (((evaluate file snap).health = Health.healthy ↔
        (evaluate file snap).onlineShards = file.shards.length) ∧
     ((evaluate file snap).health = Health.degraded ↔
        (evaluate file snap).reconstructable = true ∧
        (evaluate file snap).onlineShards < file.shards.length) ∧
     ((evaluate file snap).health = Health.critical ↔
        (evaluate file snap).reconstructable = false)) ∧
    ((evaluate rs42File snapSixOnline).onlineShards = 6 ∧
     (evaluate rs42File snapSixOnline).health = .healthy ∧
     (evaluate rs42File snapFourOnline).onlineShards = 4 ∧
     (evaluate rs42File snapFourOnline).reconstructable = true ∧
     (evaluate rs42File snapFourOnline).health = .degraded ∧
     (evaluate rs42File snapThreeOnline).onlineShards = 3 ∧
     (evaluate rs42File snapThreeOnline).reconstructable = false ∧
     (evaluate rs42File snapThreeOnline).health = .critical) := by
  constructor
  · have hneed : neededOf file.scheme = k := by
      rcases hscheme with h | h <;> simp [h, neededOf]
    have hle : onlineShardCount file snap ≤ file.shards.length :=
      List.length_filter_le _ _
    have hkle : k ≤ file.shards.length := by
      rw [hinv]; exact Nat.le_add_right k m
    have hemp : file.shards.isEmpty = false := by
      simp [List.isEmpty_iff, hne]
    simp only [evaluate, hneed, hemp]
    by_cases hq : onlineShardCount file snap = file.shards.length
    · have hrec : k ≤ onlineShardCount file snap := by omega
      simp [hq, hrec, hkle]
    · have hlt : onlineShardCount file snap < file.shards.length :=
        lt_of_le_of_ne hle hq
      by_cases hrec : k ≤ onlineShardCount file snap
      · simp [hq, hrec, hlt]
      · simp [hq, hrec]
  · decide

/-- C1 witness: the classification applied to the ReedSolomon k=4 m=2 file
with four of six shard nodes online: Degraded iff reconstructable with
fewer online than total shards. -/
theorem C1_erasure_health_classification_witness :
    (evaluate rs42File snapFourOnline).health = Health.degraded ↔
    (evaluate rs42File snapFourOnline).reconstructable = true ∧
    (evaluate rs42File snapFourOnline).onlineShards <
      rs42File.shards.length :=
  (C1_erasure_health_classification rs42File snapFourOnline 4 2
    (Or.inl rfl) (by decide) (by decide)).1.2.1

/-- C2: for every file under a Replication scheme with at least one shard
recorded, the evaluated health is Healthy iff all of its shards are
online, Degraded iff reconstructable (at least one shard online) but not
all shards online, and Critical iff no shard is online; in particular with
factor 3, one online shard gives reconstructable and Degraded, and zero
online shards gives Critical. -/
theorem C2_replication_health_classification (file : FileRecord)
    (snap : NodeRegistrySnapshot) (factor : Nat)
    (hscheme : file.scheme = .replication factor)
    (hne : file.shards ≠ []) :
    (((evaluate file snap).health = Health.healthy ↔
        ∀ sh ∈ file.shards, snap.onlineIds.contains sh.nodeId = true) ∧
     ((evaluate file snap).health = Health.degraded ↔
        (evaluate file snap).reconstructable = true ∧
        ¬ ∀ sh ∈ file.shards, snap.onlineIds.contains sh.nodeId = true) ∧
     ((evaluate file snap).health = Health.critical ↔
        (evaluate file snap).onlineShards = 0)) ∧
    ((evaluate replFile snapOneOnline).onlineShards = 1 ∧
     (evaluate replFile snapOneOnline).reconstructable = true ∧
     (evaluate replFile snapOneOnline).health = .degraded ∧
     (evaluate replFile snapZeroOnline).onlineShards = 0 ∧
     (evaluate replFile snapZeroOnline).health = .critical) := by
  constructor
  · have hneed : neededOf file.scheme = 1 := by simp [hscheme, neededOf]
    have hle : onlineShardCount file snap ≤ file.shards.length :=
      List.length_filter_le _ _
    have hpos : 0 < file.shards.length := List.length_pos.mpr hne
    have hemp : file.shards.isEmpty = false := by
      simp [List.isEmpty_iff, hne]
    have hall : onlineShardCount file snap = file.shards.length ↔
        ∀ sh ∈ file.shards, snap.onlineIds.contains sh.nodeId = true := by
      simp only [onlineShardCount]
      exact List.filter_length_eq_length
    simp only [evaluate, hneed, hemp, ← hall]
    by_cases hq : onlineShardCount file snap = file.shards.length
    · have h1 : 1 ≤ onlineShardCount file snap := by omega
      have hl0 : ¬file.shards.length = 0 := by omega
      have hon0 : ¬onlineShardCount file snap = 0 := by omega
      simp [hq, h1, hl0, hon0]
    · by_cases h1 : 1 ≤ onlineShardCount file snap
      · have hon0 : ¬onlineShardCount file snap = 0 := by omega
        simp [hq, h1, hon0]
      · have h0 : onlineShardCount file snap = 0 := by omega
        have hq0 : ¬(0 : Nat) = file.shards.length := by omega
        simp [hq, h1, h0, hq0]
  · decide

/-- C2 witness: the classification applied to the Replication factor=3
file with exactly one shard node online: Degraded iff reconstructable but
not all shards online. -/
theorem C2_replication_health_classification_witness :
    (evaluate replFile snapOneOnline).health = Health.degraded ↔
    (evaluate replFile snapOneOnline).reconstructable = true ∧
    ¬ ∀ sh ∈ replFile.shards, snapOneOnline.onlineIds.contains sh.nodeId
      = true :=
  (C2_replication_health_classification replFile snapOneOnline 3 rfl
    (by decide)).1.2.1
